import Mathlib

/-!
Verification of the preflight check subsystem (`pkg/preflight/checks.go`).

Each check's `Run` method is embedded as a pure Lean function over the
results of its external collaborators (command execution, file reads,
`os.Stat`), exactly mirroring the Go control flow.  Go machine integers
(`uint`, 64-bit) are modelled as `Nat` with explicit `% 2^64` where the
source can wrap; Go `int` parsing (`strconv.Atoi`) is modelled over `Int`
with the int64 clamping that `ParseInt` performs on range errors.

Go `float32` comparisons are modelled with exact rationals `ℚ`.  This is
faithful at every reachable input: the compared values are conversions of
machine integers, and the thresholds are `32*w`, `64*w` for
`w ∈ {1.0, 0.9}` (memory) and `1`, `10` against `m/1000` (network).  For
integer `g`, `float32(g) < float32(32*0.9f)` holds iff `g ≤ 28` iff
`(g:ℚ) < 32*(9/10)` (the float32 threshold is 28.79999923…, and integers
below 2^24 convert exactly while larger ones stay far above the
threshold); the same argument applies to 57.6, 32, 64, and to
`float32(m)/1000 < 1` iff `m < 1000` and `< 10` iff `m < 10000`.
-/

/-- Errors crossing the collaborator boundary.  `notExist` stands for
`fs.ErrNotExist` (as recognised by `errors.Is`); `errorString` models
errors built by `errors.New`/`fmt.Errorf` inside the checks; `other`
stands for any other opaque error value a collaborator may return. -/
inductive GoError where
  | notExist : GoError
  | errorString (s : String) : GoError
  | other (s : String) : GoError
deriving DecidableEq, Repr

/-- Result of `execCommand(...).Output()`: captured stdout together with
an optional error (a non-nil error corresponds to `some`). -/
structure ExecResult where
  out : String
  err : Option GoError
deriving DecidableEq, Repr

/- ### String utilities (Go `strings` / `strconv` semantics) -/

/-- ASCII whitespace as recognised by `unicode.IsSpace` (the inputs in
scope are ASCII, so the Latin-1 additions NEL and NBSP never occur). -/
def isSpaceChar (c : Char) : Bool :=
  c = ' ' || c = '\t' || c = '\n' || c = '\x0b' || c = '\x0c' || c = '\r'

def skipSpaces (cs : List Char) : List Char := cs.dropWhile isSpaceChar

/-- `strings.TrimSpace` on the character list. -/
def trimSpaceList (cs : List Char) : List Char :=
  ((cs.dropWhile isSpaceChar).reverse.dropWhile isSpaceChar).reverse

/-- `strings.TrimSpace`. -/
def trimSpace (s : String) : String := String.mk (trimSpaceList s.toList)

/-- Numeric value of a digit string (most significant first). -/
def digitsToNat (ds : List Char) : Nat :=
  ds.foldl (fun a c => a * 10 + (c.toNat - 48)) 0

/-- Integer syntax accepted by `strconv.ParseInt(s, 10, 0)`: an optional
sign followed by one or more decimal digits, nothing else. -/
def parseSignedInt (cs : List Char) : Option Int :=
  match cs with
  | '-' :: rest =>
    if rest ≠ [] ∧ rest.all Char.isDigit then some (-(digitsToNat rest : Int)) else none
  | '+' :: rest =>
    if rest ≠ [] ∧ rest.all Char.isDigit then some (digitsToNat rest : Int) else none
  | _ =>
    if cs ≠ [] ∧ cs.all Char.isDigit then some (digitsToNat cs : Int) else none

def int64Max : Int := 2 ^ 63 - 1

def int64Min : Int := -(2 ^ 63)

/-- `strconv.Atoi` with the error discarded, as the checks use it:
syntax errors yield 0, and out-of-range values are clamped to the
extreme int64 of the appropriate sign (`ParseInt` returns the clamped
value alongside `ErrRange`, and the callers drop the error). -/
def atoiGo (s : String) : Int :=
  match parseSignedInt s.toList with
  | none => 0
  | some v => if v > int64Max then int64Max else if v < int64Min then int64Min else v

/-- `strings.Split(s, "\n")` on the character list: the list of chunks
between newline characters (never empty; a trailing newline yields a
trailing empty chunk). -/
def splitNL (cs : List Char) : List (List Char) :=
  match cs with
  | [] => [[]]
  | c :: rest =>
    let r := splitNL rest
    if c = '\n' then [] :: r
    else
      match r with
      | [] => [[c]]
      | l :: ls => (c :: l) :: ls

/-- `strings.Split(s, "\n")`. -/
def splitLines (s : String) : List String := (splitNL s.toList).map String.mk

/-- `bufio.ScanLines` drops one terminal carriage return from a line. -/
def dropCR (l : String) : String :=
  match l.toList.getLast? with
  | some '\r' => String.mk l.toList.dropLast
  | _ => l

/-- The token sequence produced by a `bufio.Scanner` with the default
`ScanLines` split function: lines separated by `'\n'`, each stripped of
one trailing `'\r'`; a trailing newline does not produce a final empty
token.  (Token-size limits never trigger for the inputs in scope.) -/
def scannerLines (content : String) : List String :=
  let parts := splitLines content
  let parts :=
    match parts.getLast? with
    | some "" => parts.dropLast
    | _ => parts
  parts.map dropCR

/- ### Sscanf patterns used by MemoryCheck -/

/-- Strip an exact literal prefix, as `fmt.Sscanf` matches non-space
literal text in its format string. -/
def stripLit : List Char → List Char → Option (List Char)
  | [], cs => some cs
  | p :: ps, c :: cs => if c = p then stripLit ps cs else none
  | _ :: _, [] => none

/-- A run of one or more spaces in an `fmt.Sscanf` format string (away
from newlines): it consumes as many input spaces as possible, and it
must consume at least one space or find the end of the input, otherwise
the scan fails at that point. -/
def skipFmtSpace (cs : List Char) : Option (List Char) :=
  match cs with
  | [] => some []
  | c :: rest => if isSpaceChar c then some (skipSpaces rest) else none

/-- `fmt.Sscanf(line, "Range Size: %d %s", &rangeSize, &unit)` returning
the two operands when it scans both (`n == 2`), applied to the already
trimmed line.  Each space of the format is a format-space run: it eats
as many input spaces as possible and must eat at least one or reach the
end of the input (so `RangeSize: 2 GB`, `Range Size:2 GB` and
`Range Size: 2GB` all fail, as in Go since 1.12).  `%d` into a `uint`
reads one or more digits (values ≥ 2^64 are a range error, so no operand
is produced) and `%s` reads a non-empty run of non-space characters. -/
def parseRangeSize (line : String) : Option (Nat × String) :=
  let cs := trimSpaceList line.toList
  match stripLit "Range".toList cs with
  | none => none
  | some cs1 =>
    match skipFmtSpace cs1 with
    | none => none
    | some cs2 =>
      match stripLit "Size:".toList cs2 with
      | none => none
      | some cs3 =>
        match skipFmtSpace cs3 with
        | none => none
        | some cs4 =>
          let ds := cs4.takeWhile Char.isDigit
          let rest := cs4.dropWhile Char.isDigit
          if ds = [] then none
          else
            let v := digitsToNat ds
            if v ≥ 2 ^ 64 then none
            else
              match skipFmtSpace rest with
              | none => none
              | some cs5 =>
                let tok := cs5.takeWhile fun c => !isSpaceChar c
                if tok = [] then none else some (v, String.mk tok)

/-- `fmt.Sscanf(line, "MemTotal: %d kB", &memTotalKiB)` succeeds with
`n == 1` exactly when the line starts with the literal `MemTotal:`, then
a format-space run that must eat at least one input space (or the end of
the input, where `%d` then fails anyway — so `MemTotal:123 kB` fails, as
in Go since 1.12), then one or more digits; the trailing ` kB` of the
format is matched only after the single `%d` operand, so it cannot
affect the scanned count. -/
def parseMemTotal (line : String) : Option Nat :=
  match stripLit "MemTotal:".toList line.toList with
  | none => none
  | some cs =>
    match skipFmtSpace cs with
    | none => none
    | some cs1 =>
      let ds := cs1.takeWhile Char.isDigit
      if ds = [] then none
      else
        let v := digitsToNat ds
        if v ≥ 2 ^ 64 then none else some v

/- ### Thresholds (Hardware Requirements constants) -/

def MinCPUTest : Int := 8
def MinCPUProd : Int := 16
def MinMemoryTest : Nat := 32
def MinMemoryProd : Nat := 64
def MinNetworkGbpsTest : Nat := 1
def MinNetworkGbpsProd : Nat := 10

/- ### CPUCheck -/

/-- `CPUCheck.Run`, parameterized by the result of
`execCommand("/usr/bin/nproc", "--all").Output()`. -/
def CPUCheck.Run (nproc : ExecResult) : String × Option GoError :=
  match nproc.err with
  | some e => ("", some e)
  | none =>
    let n := atoiGo (trimSpace nproc.out)
    if n < MinCPUTest then
      (s!"Only {n} CPU cores detected. SaftOS requires at least {MinCPUTest} cores for testing and {MinCPUProd} for production use.", none)
    else if n < MinCPUProd then
      (s!"{n} CPU cores detected. SaftOS requires at least {MinCPUProd} cores for production use.", none)
    else ("", none)

/- ### MemoryCheck -/

/-- The `rangeSizeToKiB` closure: convert a `Range Size` magnitude to
kibibytes.  The magnitude is a Go `uint`, so the GB/MB shifts wrap
modulo 2^64; unrecognised units contribute 0. -/
def rangeSizeToKiB (rangeSize : Nat) (unit : String) : Nat :=
  if unit = "GB" then (rangeSize <<< 20) % 2 ^ 64
  else if unit = "MB" then (rangeSize <<< 10) % 2 ^ 64
  else if unit = "kB" then rangeSize
  else if unit = "bytes" then rangeSize >>> 10
  else 0

/-- The units that trigger the 1 TiB clamp. -/
def hugeUnit (u : String) : Bool :=
  u = "TB" || u = "PB" || u = "EB" || u = "ZB"

/-- The dmidecode scanning loop: fold over the output lines accumulating
`memTotalKiB` (a Go `uint`, addition wraps modulo 2^64); a record with a
huge unit sets the total to `1 <<< 30` and breaks. -/
def scanDMI : List String → Nat → Nat
  | [], acc => acc
  | line :: rest, acc =>
    match parseRangeSize line with
    | some r =>
      if hugeUnit r.2 then 1 <<< 30
      else scanDMI rest ((acc + rangeSizeToKiB r.1 r.2) % 2 ^ 64)
    | none => scanDMI rest acc

/-- `memTotalKiB` as computed from the primary source: 0 when
`execCommand("/usr/sbin/dmidecode", "-t", "19").Output()` errored,
otherwise the result of scanning the split output lines. -/
def dmiTotalKiB (r : ExecResult) : Nat :=
  match r.err with
  | some _ => 0
  | none => scanDMI (splitLines r.out) 0

/-- The meminfo scanning loop: take the value of the first line that the
`MemTotal` scan matches (`break` on `n == 1`); `memTotalKiB` stays 0
when no line matches. -/
def scanMemTotal : List String → Option Nat
  | [] => none
  | line :: rest =>
    match parseMemTotal line with
    | some v => some v
    | none => scanMemTotal rest

/-- The reporting tail of `MemoryCheck.Run`: MiB/GiB truncation, the
`memReported` string, and the two tier comparisons
`float32(memTotalGiB) < min * wiggleRoom` (exact over ℚ, see the header
note). -/
def memReport (memTotalKiB : Nat) (wiggleRoom : ℚ) : String × Option GoError :=
  let memTotalMiB := memTotalKiB / (1 <<< 10)
  let memTotalGiB := memTotalKiB / (1 <<< 20)
  let memReported :=
    if memTotalGiB < 1 then s!"{memTotalMiB}MiB" else s!"{memTotalGiB}GiB"
  if (memTotalGiB : ℚ) < (MinMemoryTest : ℚ) * wiggleRoom then
    (s!"Only {memReported} RAM detected. SaftOS requires at least {MinMemoryTest}GiB for testing and {MinMemoryProd}GiB for production use.", none)
  else if (memTotalGiB : ℚ) < (MinMemoryProd : ℚ) * wiggleRoom then
    (s!"{memReported} RAM detected. SaftOS requires at least {MinMemoryProd}GiB for production use.", none)
  else ("", none)

/-- Collaborator results consumed by one `MemoryCheck.Run` call: the
dmidecode invocation, and the attempt to open and read `/proc/meminfo`
(`Except.error` is a failed `os.Open`). -/
structure MemoryEnv where
  dmidecode : ExecResult
  meminfo : Except GoError String

/-- `MemoryCheck.Run`.  The fallback runs exactly when the primary
source left `memTotalKiB` at 0; it sets `wiggleRoom` to 0.9 after a
successful extraction, and a `MemTotal` that is absent or zero yields
the extraction error. -/
def MemoryCheck.Run (env : MemoryEnv) : String × Option GoError :=
  let primary := dmiTotalKiB env.dmidecode
  if primary = 0 then
    match env.meminfo with
    | .error e => ("", some e)
    | .ok content =>
      let memTotalKiB := (scanMemTotal (scannerLines content)).getD 0
      if memTotalKiB = 0 then
        ("", some (.errorString "unable to extract MemTotal from /proc/meminfo"))
      else memReport memTotalKiB (9 / 10 : ℚ)
  else memReport primary 1

/- ### VirtCheck -/

/-- `VirtCheck.Run`, parameterized by the result of
`execCommand("/usr/bin/systemd-detect-virt", "--vm").Output()`. -/
def VirtCheck.Run (r : ExecResult) : String × Option GoError :=
  let virt := trimSpace r.out
  match r.err with
  | some e => if virt = "none" then ("", none) else ("", some e)
  | none =>
    (s!"System is virtualized ({virt}) which is not supported in production.", none)

/- ### KVMHostCheck -/

/-- `KVMHostCheck.Run`, parameterized by the error of
`os.Stat("/dev/kvm")` (`none` means the stat succeeded). -/
def KVMHostCheck.Run (statErr : Option GoError) : String × Option GoError :=
  match statErr with
  | some .notExist =>
    ("SaftOS requires hardware-assisted virtualization, but /dev/kvm does not exist.", none)
  | some e => ("", some e)
  | none => ("", none)

/- ### NetworkSpeedCheck -/

/-- `fmt.Sprintf(sysClassNetDevSpeed, dev)`. -/
def sysClassNetDevSpeed (dev : String) : String := s!"/sys/class/net/{dev}/speed"

/-- Go's `%g` rendering of `float32(m)/1000` for the Mbps values `m` that
reach the production-tier message (1000 ≤ m ≤ 9999): the shortest
round-tripping decimal, which in that range is `m/1000` written with its
trailing fractional zeros removed. -/
def fmtGbps (m : Int) : String :=
  let i := m / 1000
  let f := (m % 1000).toNat
  let padded := List.replicate (3 - (toString f).length) '0' ++ (toString f).toList
  let frac := (padded.reverse.dropWhile fun c => c = '0').reverse
  if frac = [] then toString i else toString i ++ "." ++ String.mk frac

/-- `NetworkSpeedCheck.Run` for device `Dev`, parameterized by the
result of `os.ReadFile` on the speed pseudo-file. -/
def NetworkSpeedCheck.Run (Dev : String) (file : Except GoError String) :
    String × Option GoError :=
  let speedPath := sysClassNetDevSpeed Dev
  match file with
  | .error e => ("", some e)
  | .ok content =>
    let speedMbps := atoiGo (trimSpace content)
    if speedMbps < 1 then
      ("", some (.errorString s!"unable to determine NIC speed from {speedPath} (got {speedMbps})"))
    else
      let speedGbps : ℚ := (speedMbps : ℚ) / 1000
      if speedGbps < (MinNetworkGbpsTest : ℚ) then
        (s!"Link speed of {Dev} is only {speedMbps}Mpbs. SaftOS requires at least {MinNetworkGbpsTest}Gbps for testing and {MinNetworkGbpsProd}Gbps for production use.", none)
      else if speedGbps < (MinNetworkGbpsProd : ℚ) then
        let gbps := fmtGbps speedMbps
        (s!"Link speed of {Dev} is {gbps}Gbps. SaftOS requires at least {MinNetworkGbpsProd}Gbps for production use.", none)
      else ("", none)

/- ### Auxiliary definitions for the analysis -/

/-- `memReport` with the (exact) effective integer thresholds in place
of the rational comparisons, so that it evaluates by `decide`. -/
def memReportNat (memTotalKiB tEff pEff : Nat) : String × Option GoError :=
  let memTotalMiB := memTotalKiB / (1 <<< 10)
  let memTotalGiB := memTotalKiB / (1 <<< 20)
  let memReported :=
    if memTotalGiB < 1 then s!"{memTotalMiB}MiB" else s!"{memTotalGiB}GiB"
  if memTotalGiB < tEff then
    (s!"Only {memReported} RAM detected. SaftOS requires at least {MinMemoryTest}GiB for testing and {MinMemoryProd}GiB for production use.", none)
  else if memTotalGiB < pEff then
    (s!"{memReported} RAM detected. SaftOS requires at least {MinMemoryProd}GiB for production use.", none)
  else ("", none)

/-- `MemoryCheck.Run` with both reporting branches in executable form. -/
def memoryRunNat (env : MemoryEnv) : String × Option GoError :=
  let primary := dmiTotalKiB env.dmidecode
  if primary = 0 then
    match env.meminfo with
    | .error e => ("", some e)
    | .ok content =>
      let memTotalKiB := (scanMemTotal (scannerLines content)).getD 0
      if memTotalKiB = 0 then
        ("", some (.errorString "unable to extract MemTotal from /proc/meminfo"))
      else memReportNat memTotalKiB 29 58
  else memReportNat primary 32 64

/-- The `Range Size` records matched while scanning a dmidecode output:
one magnitude/unit pair per line on which the two-operand scan
succeeds. -/
def dmiRecords (out : String) : List (Nat × String) :=
  (splitLines out).filterMap parseRangeSize

/-- The dmidecode output shown in the source comment, reduced to its two
Memory Array Mapped Address records of 2 GB and 510 GB. -/
def dmiSample512 : String :=
  "Memory Array Mapped Address\n\tRange Size: 2 GB\n\tPartition Width: 1\nMemory Array Mapped Address\n\tRange Size: 510 GB\n\tPartition Width: 1\n"

/- ### Evaluation lemmas: the float comparisons as integer comparisons

The `ℚ` threshold tests do not reduce inside the kernel (rational
normalisation), so we establish once and for all their integer
equivalents, and an executable form of each branch structure. -/

theorem memGiB_lt_test_full (g : Nat) :
    ((g : ℚ) < (MinMemoryTest : ℚ) * 1) ↔ g < 32 := by
  rw [mul_one]
  rw [show ((MinMemoryTest : ℚ)) = ((32 : Nat) : ℚ) by norm_num [MinMemoryTest]]
  exact Nat.cast_lt

theorem memGiB_lt_prod_full (g : Nat) :
    ((g : ℚ) < (MinMemoryProd : ℚ) * 1) ↔ g < 64 := by
  rw [mul_one]
  rw [show ((MinMemoryProd : ℚ)) = ((64 : Nat) : ℚ) by norm_num [MinMemoryProd]]
  exact Nat.cast_lt

theorem memGiB_lt_test_wiggle (g : Nat) :
    ((g : ℚ) < (MinMemoryTest : ℚ) * (9 / 10)) ↔ g < 29 := by
  rw [show ((MinMemoryTest : ℚ) * (9 / 10)) = 144 / 5 by norm_num [MinMemoryTest]]
  rw [lt_div_iff₀ (by norm_num : (0 : ℚ) < 5)]
  rw [show ((g : ℚ) * 5) = ((g * 5 : Nat) : ℚ) by push_cast; ring]
  rw [show ((144 : ℚ)) = ((144 : Nat) : ℚ) by norm_num]
  rw [Nat.cast_lt]
  omega

theorem memGiB_lt_prod_wiggle (g : Nat) :
    ((g : ℚ) < (MinMemoryProd : ℚ) * (9 / 10)) ↔ g < 58 := by
  rw [show ((MinMemoryProd : ℚ) * (9 / 10)) = 288 / 5 by norm_num [MinMemoryProd]]
  rw [lt_div_iff₀ (by norm_num : (0 : ℚ) < 5)]
  rw [show ((g : ℚ) * 5) = ((g * 5 : Nat) : ℚ) by push_cast; ring]
  rw [show ((288 : ℚ)) = ((288 : Nat) : ℚ) by norm_num]
  rw [Nat.cast_lt]
  omega

theorem mbps_lt_test (m : Int) :
    ((m : ℚ) / 1000 < (MinNetworkGbpsTest : ℚ)) ↔ m < 1000 := by
  rw [div_lt_iff₀ (by norm_num : (0 : ℚ) < 1000)]
  rw [show ((MinNetworkGbpsTest : ℚ) * 1000) = ((1000 : Int) : ℚ) by norm_num [MinNetworkGbpsTest]]
  exact Int.cast_lt

theorem mbps_lt_prod (m : Int) :
    ((m : ℚ) / 1000 < (MinNetworkGbpsProd : ℚ)) ↔ m < 10000 := by
  rw [div_lt_iff₀ (by norm_num : (0 : ℚ) < 1000)]
  rw [show ((MinNetworkGbpsProd : ℚ) * 1000) = ((10000 : Int) : ℚ) by norm_num [MinNetworkGbpsProd]]
  exact Int.cast_lt

theorem memReport_full_eval (k : Nat) :
    memReport k 1 = memReportNat k 32 64 := by
  simp only [memReport, memReportNat, memGiB_lt_test_full, memGiB_lt_prod_full]

theorem memReport_wiggle_eval (k : Nat) :
    memReport k (9 / 10) = memReportNat k 29 58 := by
  simp only [memReport, memReportNat, memGiB_lt_test_wiggle, memGiB_lt_prod_wiggle]

/-- Every branch of the reporting tail carries a nil error. -/
theorem memReport_err_none (k : Nat) (w : ℚ) : (memReport k w).2 = none := by
  simp only [memReport]
  split_ifs <;> rfl

/-- `NetworkSpeedCheck.Run` on a readable file, with the rational tier
tests replaced by their exact integer equivalents. -/
theorem networkRun_ok_eval (Dev content : String) :
    NetworkSpeedCheck.Run Dev (.ok content) =
      (let speedMbps := atoiGo (trimSpace content)
       if speedMbps < 1 then
         ("", some (.errorString s!"unable to determine NIC speed from {sysClassNetDevSpeed Dev} (got {speedMbps})"))
       else if speedMbps < 1000 then
         (s!"Link speed of {Dev} is only {speedMbps}Mpbs. SaftOS requires at least {MinNetworkGbpsTest}Gbps for testing and {MinNetworkGbpsProd}Gbps for production use.", none)
       else if speedMbps < 10000 then
         (s!"Link speed of {Dev} is {fmtGbps speedMbps}Gbps. SaftOS requires at least {MinNetworkGbpsProd}Gbps for production use.", none)
       else ("", none)) := by
  simp only [NetworkSpeedCheck.Run, mbps_lt_test, mbps_lt_prod]

theorem memoryRun_eval (env : MemoryEnv) : MemoryCheck.Run env = memoryRunNat env := by
  simp only [MemoryCheck.Run, memoryRunNat, memReport_full_eval, memReport_wiggle_eval]

/- ### Structure of the dmidecode scan -/

/-- The accumulation loop, declaratively: if any matched record carries
a huge unit the loop ends with exactly `1 <<< 30` (whatever was
accumulated before is discarded), otherwise it folds the converted
record sizes onto the accumulator with wrapping addition. -/
theorem scanDMI_characterization (ls : List String) (acc : Nat) :
    scanDMI ls acc =
      if (ls.filterMap parseRangeSize).any (fun rec => hugeUnit rec.2) then 1 <<< 30
      else (ls.filterMap parseRangeSize).foldl
        (fun a rec => (a + rangeSizeToKiB rec.1 rec.2) % 2 ^ 64) acc := by
  induction ls generalizing acc with
  | nil => simp [scanDMI]
  | cons l rest ih =>
    cases h : parseRangeSize l with
    | none => simp [scanDMI, h, ih]
    | some r =>
      by_cases hu : hugeUnit r.2
      · simp [scanDMI, h, hu]
      · simp [scanDMI, h, hu, ih]

/-- C1: on a successful SMBIOS-table dump, `MemoryCheck.Run`'s primary
total over the matched `Range Size: <n> <unit>` records converts GB by
shift-left 20, MB by shift-left 10, kB by identity and bytes by
shift-right 10 and sums across records, except that any record with
unit TB, PB, EB or ZB makes the total exactly `2^30` KiB, discarding the
accumulated fragments and stopping there; the fragments {2 GB, 510 GB}
total 512 GiB, which passes both tiers at multiplier 1.0 (empty message,
nil error, whatever the fallback file would have said). -/
theorem memory_primary_smbios_accumulation :
    (∀ out : String,
      dmiTotalKiB ⟨out, none⟩ =
        if (dmiRecords out).any (fun rec => hugeUnit rec.2) then 1 <<< 30
        else (dmiRecords out).foldl
          (fun acc rec =>
            (acc +
              (if rec.2 = "GB" then (rec.1 <<< 20) % 2 ^ 64
               else if rec.2 = "MB" then (rec.1 <<< 10) % 2 ^ 64
               else if rec.2 = "kB" then rec.1
               else if rec.2 = "bytes" then rec.1 >>> 10
               else 0)) % 2 ^ 64) 0)
  ∧ dmiTotalKiB ⟨dmiSample512, none⟩ = 512 * (1 <<< 20)
  ∧ (∀ mi : Except GoError String,
      MemoryCheck.Run ⟨⟨dmiSample512, none⟩, mi⟩ = ("", none)) := by
  refine ⟨?_, by decide, ?_⟩
  · intro out
    show scanDMI (splitLines out) 0 = _
    rw [scanDMI_characterization]
    rfl
  · intro mi
    rw [memoryRun_eval]
    simp only [memoryRunNat]
    rw [if_neg (by decide : ¬dmiTotalKiB ⟨dmiSample512, none⟩ = 0)]
    decide

/-- Scanning stops at the first line the `MemTotal` pattern matches. -/
theorem scanMemTotal_append (pre post : List String) (line : String) (v : Nat)
    (hpre : ∀ l ∈ pre, parseMemTotal l = none)
    (hline : parseMemTotal line = some v) :
    scanMemTotal (pre ++ line :: post) = some v := by
  induction pre with
  | nil => simp [scanMemTotal, hline]
  | cons p ps ih =>
    have hp := hpre p (List.mem_cons_self p ps)
    simp only [List.cons_append, scanMemTotal, hp]
    exact ih fun l hl => hpre l (List.mem_cons_of_mem p hl)

/-- C2: when the primary SMBIOS total is zero and the memory-info file
scans to a positive `MemTotal` of `k` KiB, `MemoryCheck.Run` reports the
truncated GiB value `k >>> 20` and compares it (as an exact rational, see
the header note on `float32`) against each tier minimum multiplied by
9/10; on a file containing only `MemTotal:   32856636 kB` it reports
31GiB, passes the test tier (¬ 31 < 28.8), fails the production tier
(31 < 57.6), and returns the production-tier message with nil error. -/
theorem memory_fallback_wiggle_room :
    (∀ (dmi : ExecResult) (content : String) (k : Nat),
      dmiTotalKiB dmi = 0 →
      scanMemTotal (scannerLines content) = some k →
      0 < k →
      MemoryCheck.Run ⟨dmi, .ok content⟩ =
        (let memTotalMiB := k / (1 <<< 10)
         let memTotalGiB := k / (1 <<< 20)
         let memReported :=
           if memTotalGiB < 1 then s!"{memTotalMiB}MiB" else s!"{memTotalGiB}GiB"
         if (memTotalGiB : ℚ) < (MinMemoryTest : ℚ) * (9 / 10) then
           (s!"Only {memReported} RAM detected. SaftOS requires at least {MinMemoryTest}GiB for testing and {MinMemoryProd}GiB for production use.", none)
         else if (memTotalGiB : ℚ) < (MinMemoryProd : ℚ) * (9 / 10) then
           (s!"{memReported} RAM detected. SaftOS requires at least {MinMemoryProd}GiB for production use.", none)
         else ("", none)))
  ∧ MemoryCheck.Run ⟨⟨"", some (.other "dmidecode failed")⟩, .ok "MemTotal:   32856636 kB"⟩ =
      ("31GiB RAM detected. SaftOS requires at least 64GiB for production use.", none)
  ∧ 32856636 / (1 <<< 20) = 31
  ∧ ¬(((31 : Nat) : ℚ) < (MinMemoryTest : ℚ) * (9 / 10))
  ∧ (((31 : Nat) : ℚ) < (MinMemoryProd : ℚ) * (9 / 10)) := by
  refine ⟨?_, ?_, by decide, ?_, ?_⟩
  · intro dmi content k h0 hscan hk
    simp only [MemoryCheck.Run]
    rw [if_pos h0, hscan]
    simp only [Option.getD]
    rw [if_neg (by omega : ¬k = 0)]
    rfl
  · rw [memoryRun_eval]; decide
  · rw [memGiB_lt_test_wiggle]; omega
  · rw [memGiB_lt_prod_wiggle]; omega

theorem memory_fallback_wiggle_room_witness :
    MemoryCheck.Run ⟨⟨"no records here", none⟩, .ok "MemTotal: 16777216 kB"⟩ =
      ("Only 16GiB RAM detected. SaftOS requires at least 32GiB for testing and 64GiB for production use.", none) := by
  have h := memory_fallback_wiggle_room.1 ⟨"no records here", none⟩ "MemTotal: 16777216 kB"
    16777216 (by decide) (by decide) (by decide)
  rw [h]
  show memReport 16777216 (9 / 10) = _
  rw [memReport_wiggle_eval]
  decide

/-- C8: when the primary SMBIOS total is zero, a failure to open the
memory-info file propagates that error with an empty message, and a scan
of the whole file that finds no `MemTotal` line yields the dedicated
extraction error with an empty message. -/
theorem memory_fallback_errors :
    (∀ (dmi : ExecResult) (e : GoError), dmiTotalKiB dmi = 0 →
      MemoryCheck.Run ⟨dmi, .error e⟩ = ("", some e))
  ∧ (∀ (dmi : ExecResult) (content : String), dmiTotalKiB dmi = 0 →
      scanMemTotal (scannerLines content) = none →
      MemoryCheck.Run ⟨dmi, .ok content⟩ =
        ("", some (.errorString "unable to extract MemTotal from /proc/meminfo"))) := by
  constructor
  · intro dmi e h0
    simp only [MemoryCheck.Run]
    rw [if_pos h0]
  · intro dmi content h0 hscan
    simp only [MemoryCheck.Run]
    rw [if_pos h0, hscan]
    rfl

theorem memory_fallback_errors_witness :
    MemoryCheck.Run ⟨⟨"garbage", none⟩, .error (.other "open /proc/meminfo: permission denied")⟩ =
        ("", some (.other "open /proc/meminfo: permission denied"))
  ∧ MemoryCheck.Run ⟨⟨"", some (.other "exec failed")⟩, .ok "MemFree: 12 kB\nSwapTotal: 0 kB"⟩ =
        ("", some (.errorString "unable to extract MemTotal from /proc/meminfo")) :=
  ⟨memory_fallback_errors.1 ⟨"garbage", none⟩ _ (by decide),
   memory_fallback_errors.2 ⟨"", some (.other "exec failed")⟩ _ (by decide) (by decide)⟩

/-- C10: when the primary SMBIOS total is zero and the first line of the
memory-info file matching the `MemTotal` pattern carries the value 0,
the scan breaks there (whatever follows is never consulted) and
`MemoryCheck.Run` returns exactly the extraction error that a file with
no `MemTotal` line at all produces, with an empty message. -/
theorem memory_memtotal_zero_indistinguishable :
    ∀ (dmi : ExecResult) (content : String) (pre post : List String) (line : String),
      dmiTotalKiB dmi = 0 →
      scannerLines content = pre ++ line :: post →
      (∀ l ∈ pre, parseMemTotal l = none) →
      parseMemTotal line = some 0 →
      MemoryCheck.Run ⟨dmi, .ok content⟩ =
        ("", some (.errorString "unable to extract MemTotal from /proc/meminfo")) := by
  intro dmi content pre post line h0 hsplit hpre hline
  simp only [MemoryCheck.Run]
  rw [if_pos h0, hsplit, scanMemTotal_append pre post line 0 hpre hline]
  rfl

theorem memory_memtotal_zero_indistinguishable_witness :
    MemoryCheck.Run ⟨⟨"", some (.other "no dmidecode")⟩,
        .ok "MemFree: 4 kB\nMemTotal: 0 kB\nSwapTotal: 99 kB"⟩ =
      ("", some (.errorString "unable to extract MemTotal from /proc/meminfo")) :=
  memory_memtotal_zero_indistinguishable ⟨"", some (.other "no dmidecode")⟩
    "MemFree: 4 kB\nMemTotal: 0 kB\nSwapTotal: 99 kB"
    ["MemFree: 4 kB"] ["SwapTotal: 99 kB"] "MemTotal: 0 kB"
    (by decide) (by decide) (by decide) (by decide)

/-- C3: with `c` the parsed core count (0 when the output does not parse
as an integer, the parse error never surfacing), `CPUCheck.Run` reports
both tier minimums when `c < 8`, the production minimum only when
`8 ≤ c < 16`, and nothing when `16 ≤ c`, always with nil error; a failed
utility invocation returns its error unmodified with an empty
message. -/
theorem cpu_tier_policy :
    (∀ (out : String) (e : GoError), CPUCheck.Run ⟨out, some e⟩ = ("", some e))
  ∧ (∀ (out : String) (c : Int), atoiGo (trimSpace out) = c →
      (c < 8 → CPUCheck.Run ⟨out, none⟩ =
        (s!"Only {c} CPU cores detected. SaftOS requires at least {MinCPUTest} cores for testing and {MinCPUProd} for production use.", none))
      ∧ (8 ≤ c → c < 16 → CPUCheck.Run ⟨out, none⟩ =
        (s!"{c} CPU cores detected. SaftOS requires at least {MinCPUProd} cores for production use.", none))
      ∧ (16 ≤ c → CPUCheck.Run ⟨out, none⟩ = ("", none)))
  ∧ MinCPUTest = 8 ∧ MinCPUProd = 16
  ∧ (∀ out : String, parseSignedInt (trimSpace out).toList = none →
      atoiGo (trimSpace out) = 0) := by
  refine ⟨?_, ?_, rfl, rfl, ?_⟩
  · intro out e; rfl
  · intro out c hc
    refine ⟨?_, ?_, ?_⟩
    · intro h
      simp only [CPUCheck.Run, hc]
      rw [if_pos (show c < MinCPUTest from h)]
    · intro h8 h16
      simp only [CPUCheck.Run, hc]
      rw [if_neg (show ¬c < MinCPUTest from not_lt.mpr h8),
        if_pos (show c < MinCPUProd from h16)]
    · intro h16
      simp only [CPUCheck.Run, hc]
      rw [if_neg (show ¬c < MinCPUTest by simp only [MinCPUTest]; omega),
        if_neg (show ¬c < MinCPUProd from not_lt.mpr h16)]
  · intro out h
    have h' : parseSignedInt (trimSpace out).data = none := h
    simp [atoiGo, h']

theorem cpu_tier_policy_witness :
    CPUCheck.Run ⟨"4\n", none⟩ =
      ("Only 4 CPU cores detected. SaftOS requires at least 8 cores for testing and 16 for production use.", none)
  ∧ CPUCheck.Run ⟨"12\n", none⟩ =
      ("12 CPU cores detected. SaftOS requires at least 16 cores for production use.", none)
  ∧ CPUCheck.Run ⟨"cannot parse\n", none⟩ =
      ("Only 0 CPU cores detected. SaftOS requires at least 8 cores for testing and 16 for production use.", none)
  ∧ CPUCheck.Run ⟨"anything", some (.other "exec: nproc: not found")⟩ =
      ("", some (.other "exec: nproc: not found")) :=
  ⟨(((cpu_tier_policy.2.1 "4\n" 4 (by decide)).1 (by decide)).trans (by decide)),
   (((cpu_tier_policy.2.1 "12\n" 12 (by decide)).2.1 (by decide) (by decide)).trans (by decide)),
   (((cpu_tier_policy.2.1 "cannot parse\n" 0 (by decide)).1 (by decide)).trans (by decide)),
   cpu_tier_policy.1 "anything" (.other "exec: nproc: not found")⟩

/-- C4: on a readable speed file whose trimmed content parses to an
integer `m ≥ 1`, `NetworkSpeedCheck.Run` compares `m/1000` (as an exact
rational, equivalent here to the source's float32, see the header note)
against 1 and 10 Gbps: below 1 Gbps the message carries the Mbps figure
and both tier minimums, below 10 Gbps the Gbps figure and the production
minimum only, otherwise no message; the error is nil in all three
branches.  Content `2500` passes the test tier, fails the production
tier, and reports 2.5Gbps. -/
theorem network_speed_tiers :
    (∀ (Dev content : String) (m : Int), atoiGo (trimSpace content) = m → 1 ≤ m →
      (m < 1000 → NetworkSpeedCheck.Run Dev (.ok content) =
        (s!"Link speed of {Dev} is only {m}Mpbs. SaftOS requires at least {MinNetworkGbpsTest}Gbps for testing and {MinNetworkGbpsProd}Gbps for production use.", none))
      ∧ (1000 ≤ m → m < 10000 → NetworkSpeedCheck.Run Dev (.ok content) =
        (s!"Link speed of {Dev} is {fmtGbps m}Gbps. SaftOS requires at least {MinNetworkGbpsProd}Gbps for production use.", none))
      ∧ (10000 ≤ m → NetworkSpeedCheck.Run Dev (.ok content) = ("", none)))
  ∧ (∀ m : Int,
      ((m : ℚ) / 1000 < (MinNetworkGbpsTest : ℚ) ↔ m < 1000)
      ∧ ((m : ℚ) / 1000 < (MinNetworkGbpsProd : ℚ) ↔ m < 10000))
  ∧ NetworkSpeedCheck.Run "eth0" (.ok "2500") =
      ("Link speed of eth0 is 2.5Gbps. SaftOS requires at least 10Gbps for production use.", none)
  ∧ fmtGbps 2500 = "2.5" := by
  refine ⟨?_, fun m => ⟨mbps_lt_test m, mbps_lt_prod m⟩, ?_, by decide⟩
  · intro Dev content m hc h1
    simp only [networkRun_ok_eval, hc]
    refine ⟨?_, ?_, ?_⟩
    · intro h
      rw [if_neg (not_lt.mpr h1), if_pos h]
    · intro hlo hhi
      rw [if_neg (not_lt.mpr h1), if_neg (not_lt.mpr hlo), if_pos hhi]
    · intro h
      rw [if_neg (not_lt.mpr h1), if_neg (not_lt.mpr (by omega)),
        if_neg (not_lt.mpr h)]
  · rw [networkRun_ok_eval]; decide

theorem network_speed_tiers_witness :
    NetworkSpeedCheck.Run "eno1" (.ok "100\n") =
      ("Link speed of eno1 is only 100Mpbs. SaftOS requires at least 1Gbps for testing and 10Gbps for production use.", none)
  ∧ NetworkSpeedCheck.Run "eno1" (.ok "2500\n") =
      ("Link speed of eno1 is 2.5Gbps. SaftOS requires at least 10Gbps for production use.", none)
  ∧ NetworkSpeedCheck.Run "eno1" (.ok "25000\n") = ("", none) :=
  ⟨(((network_speed_tiers.1 "eno1" "100\n" 100 (by decide) (by decide)).1 (by decide)).trans
      (by decide)),
   (((network_speed_tiers.1 "eno1" "2500\n" 2500 (by decide) (by decide)).2.1 (by decide)
      (by decide)).trans (by decide)),
   ((network_speed_tiers.1 "eno1" "25000\n" 25000 (by decide) (by decide)).2.2 (by decide))⟩

/-- C7: on a readable speed file whose trimmed content parses below 1 —
including unparseable content (treated as 0) and the virtio sentinel
`-1` — `NetworkSpeedCheck.Run` returns an empty message and an error
naming the speed-file path and the parsed value; no threshold message is
produced. -/
theorem network_bogus_speed_error :
    (∀ (Dev content : String) (m : Int), atoiGo (trimSpace content) = m → m < 1 →
      NetworkSpeedCheck.Run Dev (.ok content) =
        ("", some (.errorString s!"unable to determine NIC speed from {sysClassNetDevSpeed Dev} (got {m})")))
  ∧ (∀ Dev : String, sysClassNetDevSpeed Dev = "/sys/class/net/" ++ Dev ++ "/speed")
  ∧ NetworkSpeedCheck.Run "eth0" (.ok "-1") =
      ("", some (.errorString "unable to determine NIC speed from /sys/class/net/eth0/speed (got -1)"))
  ∧ NetworkSpeedCheck.Run "eth0" (.ok "bogus") =
      ("", some (.errorString "unable to determine NIC speed from /sys/class/net/eth0/speed (got 0)")) := by
  refine ⟨?_, ?_, ?_, ?_⟩
  · intro Dev content m hc h
    simp only [networkRun_ok_eval, hc]
    rw [if_pos h]
  · intro Dev
    rfl
  · rw [networkRun_ok_eval]; decide
  · rw [networkRun_ok_eval]; decide

theorem network_bogus_speed_error_witness :
    NetworkSpeedCheck.Run "virbr0" (.ok "-1\n") =
      ("", some (.errorString "unable to determine NIC speed from /sys/class/net/virbr0/speed (got -1)")) :=
  (network_bogus_speed_error.1 "virbr0" "-1\n" (-1) (by decide) (by decide)).trans (by decide)

/-- The virtualization-detected message is never the empty string. -/
theorem virt_msg_ne_empty (v : String) :
    s!"System is virtualized ({v}) which is not supported in production." ≠ "" := by
  intro h
  have hd := congrArg String.data h
  simp [String.data_append] at hd

/-- C5: `VirtCheck.Run` yields empty message and nil error exactly when
the command exited non-zero with trimmed output `none`; any other
non-zero exit surfaces the command's error with an empty message; a zero
exit yields nil error and a message naming the trimmed output, e.g.
`kvm`. -/
theorem virt_detection_policy :
    (∀ (out : String) (oerr : Option GoError),
      VirtCheck.Run ⟨out, oerr⟩ = ("", none) ↔ (oerr ≠ none ∧ trimSpace out = "none"))
  ∧ (∀ (out : String) (e : GoError), trimSpace out ≠ "none" →
      VirtCheck.Run ⟨out, some e⟩ = ("", some e))
  ∧ (∀ out : String,
      VirtCheck.Run ⟨out, none⟩ =
        (s!"System is virtualized ({trimSpace out}) which is not supported in production.", none))
  ∧ VirtCheck.Run ⟨"kvm\n", none⟩ =
      ("System is virtualized (kvm) which is not supported in production.", none)
  ∧ VirtCheck.Run ⟨"none\n", some (.other "exit status 1")⟩ = ("", none) := by
  refine ⟨?_, ?_, fun out => rfl, by decide, by decide⟩
  · intro out oerr
    cases oerr with
    | none =>
      apply iff_of_false
      · intro h
        exact virt_msg_ne_empty (trimSpace out) (congrArg Prod.fst h)
      · rintro ⟨hne, _⟩
        exact hne rfl
    | some e =>
      simp only [VirtCheck.Run]
      by_cases hv : trimSpace out = "none"
      · rw [if_pos hv]
        simp [hv]
      · rw [if_neg hv]
        simp [hv]
  · intro out e hne
    simp only [VirtCheck.Run]
    rw [if_neg hne]

theorem virt_detection_policy_witness :
    VirtCheck.Run ⟨"oracle\n", some (.other "exit status 3")⟩ =
      ("", some (.other "exit status 3")) :=
  virt_detection_policy.2.1 "oracle\n" (.other "exit status 3") (by decide)

/-- C6: `KVMHostCheck.Run` returns the hardware-virtualization message
with nil error exactly when the stat error is does-not-exist; a
successful stat yields empty message and nil error; any other stat
error propagates unmodified with an empty message. -/
theorem kvm_host_policy :
    KVMHostCheck.Run (some .notExist) =
      ("SaftOS requires hardware-assisted virtualization, but /dev/kvm does not exist.", none)
  ∧ KVMHostCheck.Run none = ("", none)
  ∧ (∀ e : GoError, e ≠ .notExist → KVMHostCheck.Run (some e) = ("", some e))
  ∧ (∀ se : Option GoError,
      ((KVMHostCheck.Run se).1 ≠ "" ∧ (KVMHostCheck.Run se).2 = none) ↔
        se = some .notExist) := by
  refine ⟨rfl, rfl, ?_, ?_⟩
  · intro e he
    cases e with
    | notExist => exact absurd rfl he
    | errorString s => rfl
    | other s => rfl
  · intro se
    cases se with
    | none => simp [KVMHostCheck.Run]
    | some e =>
      cases e with
      | notExist => simp [KVMHostCheck.Run]
      | errorString s => simp [KVMHostCheck.Run]
      | other s => simp [KVMHostCheck.Run]

theorem kvm_host_policy_witness :
    KVMHostCheck.Run (some (.other "permission denied")) =
      ("", some (.other "permission denied")) :=
  kvm_host_policy.2.2.1 (.other "permission denied") (by decide)

/-- C9: for every check variant and every collaborator behavior, `Run`
never returns a non-empty message together with a non-nil error: each
result has an empty message or a nil error. -/
theorem checks_two_channel_invariant :
    (∀ r : ExecResult, (CPUCheck.Run r).1 = "" ∨ (CPUCheck.Run r).2 = none)
  ∧ (∀ env : MemoryEnv, (MemoryCheck.Run env).1 = "" ∨ (MemoryCheck.Run env).2 = none)
  ∧ (∀ r : ExecResult, (VirtCheck.Run r).1 = "" ∨ (VirtCheck.Run r).2 = none)
  ∧ (∀ se : Option GoError,
      (KVMHostCheck.Run se).1 = "" ∨ (KVMHostCheck.Run se).2 = none)
  ∧ (∀ (Dev : String) (f : Except GoError String),
      (NetworkSpeedCheck.Run Dev f).1 = "" ∨ (NetworkSpeedCheck.Run Dev f).2 = none) := by
  refine ⟨?_, ?_, ?_, ?_, ?_⟩
  · rintro ⟨out, err⟩
    cases err with
    | some e => left; rfl
    | none =>
      right
      simp only [CPUCheck.Run]
      split_ifs <;> rfl
  · rintro ⟨dmi, mi⟩
    by_cases h0 : dmiTotalKiB dmi = 0
    · cases mi with
      | error e => left; simp [MemoryCheck.Run, h0]
      | ok content =>
        by_cases hz : (scanMemTotal (scannerLines content)).getD 0 = 0
        · left; simp [MemoryCheck.Run, h0, hz]
        · right; simp [MemoryCheck.Run, h0, hz, memReport_err_none]
    · right; simp [MemoryCheck.Run, h0, memReport_err_none]
  · rintro ⟨out, err⟩
    cases err with
    | none => right; rfl
    | some e =>
      left
      simp only [VirtCheck.Run]
      split_ifs <;> rfl
  · intro se
    cases se with
    | none => left; rfl
    | some e => cases e with
      | notExist => right; rfl
      | errorString s => left; rfl
      | other s => left; rfl
  · intro Dev f
    cases f with
    | error e => left; rfl
    | ok content =>
      simp only [networkRun_ok_eval]
      by_cases h1 : atoiGo (trimSpace content) < 1
      · left; simp [h1]
      · right
        rw [if_neg h1]
        split_ifs <;> rfl

